import Mathlib

/-!
Verification of the Multi-Array Solar Forecast coordinator
(`coordinator.py`, class SolarForecastCoordinator).

Shallow embedding conventions:
* Python floats are modelled as rationals (ℚ); every arithmetic operation the
  code performs (division by constants, multiplication, max) is exact here.
* A timezone-aware datetime is modelled as an integer number of hours since an
  arbitrary epoch; `datetime.hour` becomes `Timestamp.hour t = t % 24`
  (nonnegative for the Int emod).  The coordinator compares timestamps after
  replacing both sides' tzinfo with the same fixed zone, which is exactly the
  order on the underlying instants, so plain integer comparison models it.
* Nullable hourly provider fields become values of Option ℚ; a list index that
  is out of range behaves like a null entry, matching the
  `i < len(xs) and xs[i] is not None` guards.
* Exceptions become Except / Option values: a per-array fetch result is
  `Option ProcessedData` (none = the fetch task raised), and
  `_async_update_data` returns `Except String Snapshot` (error = UpdateFailed).
-/

namespace SolarForecast

/-- A timezone-aware instant, in whole hours since an arbitrary epoch. -/
abbrev Timestamp := Int

/-- Embedding of `datetime.hour`: the hour-of-day of a timestamp, in [0, 23]. -/
def Timestamp.hour (t : Timestamp) : Int := t % 24

/-- Static configuration of one array (`array` dict: CONF_KWP, CONF_DECLINATION,
CONF_AZIMUTH, CONF_DAMPING with default 0.0). -/
structure ArrayConfig where
  kwp : ℚ
  declination : ℚ
  azimuth : ℚ
  damping : ℚ
  deriving DecidableEq

/-- Embedding of `SolarForecastCoordinator._get_orientation_factor` (coordinator.py lines
282-294): a coarse time-of-day multiplier.  The declination and azimuth
parameters are accepted but never read. -/
def get_orientation_factor (declination azimuth : ℚ) (timestamp : Timestamp) : ℚ :=
  let hour := Timestamp.hour timestamp
  if hour < 6 ∨ hour > 20 then 0.0
  else if hour < 8 ∨ hour > 18 then 0.2
  else if hour < 10 ∨ hour > 16 then 0.6
  else 1.0

/-- Embedding of `SolarForecastCoordinator._calculate_solar_power` (coordinator.py lines
241-280): base power scaled by temperature, orientation, cloud cover and
damping factors, clamped to be nonnegative. -/
def calculate_solar_power (radiation kwp declination azimuth damping : ℚ)
    (timestamp : Timestamp) (temperature cloud_cover : ℚ) : ℚ :=
  if radiation ≤ 0 then 0.0
  else
    let base_power := (radiation / 1000.0) * kwp
    let temp_coefficient : ℚ := -0.004
    let temp_factor := 1 + temp_coefficient * (temperature - 25.0)
    let power_output := base_power * temp_factor
    let orientation_factor := get_orientation_factor declination azimuth timestamp
    let power_output := power_output * orientation_factor
    let cloud_factor := 1.0 - (cloud_cover / 100.0) * 0.8
    let power_output := power_output * cloud_factor
    let power_output := power_output * (1 - damping)
    max 0.0 power_output

/-- Claim C6: for every combination of inputs, `_calculate_solar_power`
returns a value greater than or equal to 0.0. -/
theorem calculate_solar_power_nonneg
    (radiation kwp declination azimuth damping : ℚ) (timestamp : Timestamp)
    (temperature cloud_cover : ℚ) :
    0 ≤ calculate_solar_power radiation kwp declination azimuth damping
        timestamp temperature cloud_cover := by
  unfold calculate_solar_power
  split
  · norm_num
  · exact le_trans (by norm_num) (le_max_left 0.0 _)

/-- Claim C8: the orientation factor ignores declination and azimuth and is
determined by the timestamp's hour alone: 0.0 outside [6,20], 0.2 on
[6,8) ∪ (18,20], 0.6 on [8,10) ∪ (16,18], and 1.0 on [10,16]. -/
theorem get_orientation_factor_spec (d1 a1 d2 a2 : ℚ) (t : Timestamp) :
    get_orientation_factor d1 a1 t = get_orientation_factor d2 a2 t ∧
    (Timestamp.hour t < 6 ∨ 20 < Timestamp.hour t →
      get_orientation_factor d1 a1 t = 0.0) ∧
    ((6 ≤ Timestamp.hour t ∧ Timestamp.hour t < 8) ∨
        (18 < Timestamp.hour t ∧ Timestamp.hour t ≤ 20) →
      get_orientation_factor d1 a1 t = 0.2) ∧
    ((8 ≤ Timestamp.hour t ∧ Timestamp.hour t < 10) ∨
        (16 < Timestamp.hour t ∧ Timestamp.hour t ≤ 18) →
      get_orientation_factor d1 a1 t = 0.6) ∧
    (10 ≤ Timestamp.hour t ∧ Timestamp.hour t ≤ 16 →
      get_orientation_factor d1 a1 t = 1.0) := by
  unfold get_orientation_factor Timestamp.hour
  refine ⟨rfl, ?_, ?_, ?_, ?_⟩ <;> intro h <;> dsimp only <;>
    split_ifs <;> first | rfl | (exfalso; omega)

/-- Witness for C8: at 07:00 (a low-sun fringe hour) the factor is 0.2,
whatever the declination and azimuth. -/
theorem get_orientation_factor_spec_witness :
    get_orientation_factor 30 180 7 = 0.2 :=
  (get_orientation_factor_spec 30 180 0 0 7).2.2.1 (Or.inl (by decide))

/-- Clamped multiplication by a smaller (but still nonnegative) cloud factor
never increases the result, whatever the sign of the fixed factor. -/
lemma clamp_mul_mono (K : ℚ) {cf1 cf2 : ℚ} (h0 : 0 ≤ cf2) (h12 : cf2 ≤ cf1) :
    max 0.0 (K * cf2) ≤ max 0.0 (K * cf1) := by
  have h00 : (0.0 : ℚ) = 0 := by norm_num
  rw [h00]
  rcases le_or_lt 0 K with hK | hK
  · exact max_le_max le_rfl (mul_le_mul_of_nonneg_left h12 hK)
  · have h1 : K * cf2 ≤ 0 := mul_nonpos_iff.2 (Or.inr ⟨hK.le, h0⟩)
    have h2 : K * cf1 ≤ 0 := mul_nonpos_iff.2 (Or.inr ⟨hK.le, le_trans h0 h12⟩)
    rw [max_eq_left h1, max_eq_left h2]

/-- Claim C7: with every other input held fixed and cloud covers
0 ≤ c1 ≤ c2 ≤ 100, raising the cloud cover from c1 to c2 never increases
the computed power. -/
theorem calculate_solar_power_cloud_antitone
    (radiation kwp declination azimuth damping : ℚ) (timestamp : Timestamp)
    (temperature : ℚ) (c1 c2 : ℚ)
    (h0 : 0 ≤ c1) (h12 : c1 ≤ c2) (h100 : c2 ≤ 100) :
    calculate_solar_power radiation kwp declination azimuth damping
        timestamp temperature c2 ≤
      calculate_solar_power radiation kwp declination azimuth damping
        timestamp temperature c1 := by
  by_cases hrad : radiation ≤ 0
  · simp [calculate_solar_power, hrad]
  · simp only [calculate_solar_power, if_neg hrad]
    rw [mul_right_comm _ (1.0 - c2 / 100.0 * 0.8) (1 - damping),
      mul_right_comm _ (1.0 - c1 / 100.0 * 0.8) (1 - damping)]
    refine clamp_mul_mono _ ?_ ?_
    · norm_num
      linarith
    · norm_num
      linarith

/-- Witness for C7: at irradiance 800, kwp 5, noon, fully overcast output does
not exceed clear-sky output. -/
theorem calculate_solar_power_cloud_antitone_witness :
    calculate_solar_power 800 5 30 180 0 12 25 100 ≤
      calculate_solar_power 800 5 30 180 0 12 25 0 :=
  calculate_solar_power_cloud_antitone 800 5 30 180 0 12 25 0 100
    (by norm_num) (by norm_num) (by norm_num)

/-! ## Forecast processing (`_process_forecast_data`) -/

/-- The `hourly` block of an Open-Meteo response, already parsed: parallel
lists indexed by forecast hour.  A `none` entry models a JSON null; reading
past the end of a list behaves like null (the code guards every access with
`i < len(xs) and xs[i] is not None`). -/
structure HourlyData where
  time : List Timestamp
  shortwave_radiation : List (Option ℚ)
  temperature_2m : List (Option ℚ)
  cloud_cover : List (Option ℚ)
  wind_speed_10m : List (Option ℚ)
  deriving DecidableEq

/-- The per-array series built by `_process_forecast_data` (the six parallel
lists; the summary metrics added afterwards by `_calculate_summary_metrics`
are derived from these lists and do not modify them, and are modelled by the
standalone aggregation functions below). -/
structure ProcessedData where
  timestamps : List Timestamp
  power_forecast : List ℚ
  energy_forecast : List ℚ
  temperature : List ℚ
  cloud_cover : List ℚ
  wind_speed : List ℚ
  deriving DecidableEq

/-- The empty series of `_get_empty_forecast_data` (list fields only). -/
def get_empty_forecast_data : ProcessedData :=
  { timestamps := [], power_forecast := [], energy_forecast := []
  , temperature := [], cloud_cover := [], wind_speed := [] }

/-- The per-hour loop of `_process_forecast_data` (coordinator.py lines
193-233), processing `times` starting at index `i`: an hour is skipped when
its radiation entry is missing or null; otherwise power is computed with
temperature defaulting to 25.0 and cloud cover to 0.0 when missing or null,
and all six lists receive one entry (wind defaults to 0.0). -/
def processLoop (cfg : ArrayConfig)
    (radiation temperature cloud_cover wind_speed : List (Option ℚ)) :
    Nat → List Timestamp → ProcessedData
  | _, [] => get_empty_forecast_data
  | i, t :: ts =>
    let rest := processLoop cfg radiation temperature cloud_cover wind_speed (i + 1) ts
    match radiation.getD i none with
    | none => rest
    | some r =>
      let temp_v := (temperature.getD i none).getD 25.0
      let cloud_v := (cloud_cover.getD i none).getD 0.0
      let wind_v := (wind_speed.getD i none).getD 0.0
      let power_output := calculate_solar_power r cfg.kwp cfg.declination
        cfg.azimuth cfg.damping t temp_v cloud_v
      { timestamps := t :: rest.timestamps
      , power_forecast := power_output :: rest.power_forecast
      , energy_forecast := power_output :: rest.energy_forecast
      , temperature := temp_v :: rest.temperature
      , cloud_cover := cloud_v :: rest.cloud_cover
      , wind_speed := wind_v :: rest.wind_speed }

/-- Embedding of `SolarForecastCoordinator._process_forecast_data` (coordinator.py lines
158-239): empty `time` or `shortwave_radiation` yields the empty series,
otherwise the per-hour loop runs from index 0. -/
def process_forecast_data (cfg : ArrayConfig) (hd : HourlyData) : ProcessedData :=
  if hd.time = [] ∨ hd.shortwave_radiation = [] then get_empty_forecast_data
  else processLoop cfg hd.shortwave_radiation hd.temperature_2m hd.cloud_cover
    hd.wind_speed_10m 0 hd.time

/-- One retained hour of the spec-side reference processing. -/
structure SpecRow where
  timestamp : Timestamp
  power : ℚ
  temperature : ℚ
  cloud_cover : ℚ
  wind_speed : ℚ
  deriving DecidableEq

/-- Spec-side reference for one indexed hour, following the spec's words: the
hour is kept iff its irradiance entry is present and non-null; missing or
null temperature/cloud/wind become the defaults 25.0 / 0.0 / 0.0, and the
defaulted temperature and cloud cover feed the power computation. -/
def specRow (cfg : ArrayConfig)
    (radiation temperature cloud_cover wind_speed : List (Option ℚ))
    (p : Nat × Timestamp) : Option SpecRow :=
  match radiation.getD p.1 none with
  | none => none
  | some r =>
    let temp_v := (temperature.getD p.1 none).getD 25.0
    let cloud_v := (cloud_cover.getD p.1 none).getD 0.0
    let wind_v := (wind_speed.getD p.1 none).getD 0.0
    some { timestamp := p.2
         , power := calculate_solar_power r cfg.kwp cfg.declination cfg.azimuth
             cfg.damping p.2 temp_v cloud_v
         , temperature := temp_v
         , cloud_cover := cloud_v
         , wind_speed := wind_v }

/-- Unzip a list of retained rows into the six parallel series lists. -/
def rowsToData (rows : List SpecRow) : ProcessedData :=
  { timestamps := rows.map SpecRow.timestamp
  , power_forecast := rows.map SpecRow.power
  , energy_forecast := rows.map SpecRow.power
  , temperature := rows.map SpecRow.temperature
  , cloud_cover := rows.map (fun r => r.cloud_cover)
  , wind_speed := rows.map (fun r => r.wind_speed) }

/-- Spec-side reference processing: keep exactly the hours with non-null
irradiance, in order, with defaults substituted for secondary fields. -/
def spec_process_forecast_data (cfg : ArrayConfig) (hd : HourlyData) : ProcessedData :=
  if hd.time = [] ∨ hd.shortwave_radiation = [] then get_empty_forecast_data
  else rowsToData (hd.time.enum.filterMap
    (specRow cfg hd.shortwave_radiation hd.temperature_2m hd.cloud_cover
      hd.wind_speed_10m))

lemma processLoop_eq_rows (cfg : ArrayConfig)
    (radiation temperature cloud_cover wind_speed : List (Option ℚ)) :
    ∀ (ts : List Timestamp) (i : Nat),
      processLoop cfg radiation temperature cloud_cover wind_speed i ts =
        rowsToData ((ts.enumFrom i).filterMap
          (specRow cfg radiation temperature cloud_cover wind_speed))
  | [], _ => rfl
  | t :: ts, i => by
    have ih := processLoop_eq_rows cfg radiation temperature cloud_cover
      wind_speed ts (i + 1)
    cases hr : radiation.getD i none with
    | none =>
      simp only [processLoop, hr, List.enumFrom, List.filterMap_cons, specRow]
      exact ih
    | some r =>
      simp only [processLoop, hr, List.enumFrom, List.filterMap_cons, specRow,
        rowsToData, List.map_cons, ih]

/-- Claim C9: processing keeps an hour iff its irradiance is present and
non-null, substitutes the defaults 25.0 °C / 0.0 % cloud / 0.0 wind for
missing or null secondary fields (the defaulted temperature and cloud cover
feed the power computation), and therefore agrees with the spec-side
reference; all six lists always share the timestamps' length, so secondary
gaps never shorten the exposed time axis. -/
theorem process_forecast_data_spec (cfg : ArrayConfig) (hd : HourlyData) :
    process_forecast_data cfg hd = spec_process_forecast_data cfg hd ∧
    (process_forecast_data cfg hd).power_forecast.length =
      (process_forecast_data cfg hd).timestamps.length ∧
    (process_forecast_data cfg hd).temperature.length =
      (process_forecast_data cfg hd).timestamps.length ∧
    (process_forecast_data cfg hd).cloud_cover.length =
      (process_forecast_data cfg hd).timestamps.length ∧
    (process_forecast_data cfg hd).wind_speed.length =
      (process_forecast_data cfg hd).timestamps.length := by
  have hmain : process_forecast_data cfg hd = spec_process_forecast_data cfg hd := by
    unfold process_forecast_data spec_process_forecast_data
    split
    · rfl
    · exact processLoop_eq_rows cfg hd.shortwave_radiation hd.temperature_2m
        hd.cloud_cover hd.wind_speed_10m hd.time 0
  refine ⟨hmain, ?_, ?_, ?_, ?_⟩ <;> rw [hmain] <;>
    unfold spec_process_forecast_data <;> split <;>
    simp [rowsToData, get_empty_forecast_data]

/-! ## Time-axis shape (claim C3) -/

/-- Strictly increasing adjacent entries. -/
def strictlyIncr : List Int → Bool
  | [] => true
  | [_] => true
  | a :: b :: ts => decide (a < b) && strictlyIncr (b :: ts)

/-- Uniform one-hour spacing between adjacent entries. -/
def uniformHourly : List Int → Bool
  | [] => true
  | [_] => true
  | a :: b :: ts => decide (b = a + 1) && uniformHourly (b :: ts)

lemma uniformHourly_lt_of_mem :
    ∀ {a : Int} {ts : List Int},
      uniformHourly (a :: ts) = true → ∀ x ∈ ts, a < x := by
  intro a ts
  induction ts generalizing a with
  | nil => intro _ x hx; cases hx
  | cons b ts ih =>
    intro h x hx
    rw [uniformHourly, Bool.and_eq_true, decide_eq_true_eq] at h
    obtain ⟨h1, h2⟩ := h
    rcases List.mem_cons.1 hx with rfl | hx
    · omega
    · have := ih h2 x hx
      omega

lemma uniformHourly_pairwise :
    ∀ {ts : List Int}, uniformHourly ts = true → ts.Pairwise (· < ·) := by
  intro ts
  induction ts with
  | nil => intro _; exact List.Pairwise.nil
  | cons a ts ih =>
    intro h
    have htail : uniformHourly ts = true := by
      cases ts with
      | nil => rfl
      | cons b ts =>
        rw [uniformHourly, Bool.and_eq_true] at h
        exact h.2
    exact List.pairwise_cons.2 ⟨uniformHourly_lt_of_mem h, ih htail⟩

lemma pairwise_strictlyIncr :
    ∀ {ts : List Int}, ts.Pairwise (· < ·) → strictlyIncr ts = true := by
  intro ts
  induction ts with
  | nil => intro _; rfl
  | cons a ts ih =>
    intro h
    rcases List.pairwise_cons.1 h with ⟨hlt, htail⟩
    cases ts with
    | nil => rfl
    | cons b ts =>
      rw [strictlyIncr, Bool.and_eq_true, decide_eq_true_eq]
      exact ⟨hlt b (List.mem_cons_self b ts), ih htail⟩

lemma processLoop_timestamps_sublist (cfg : ArrayConfig)
    (radiation temperature cloud_cover wind_speed : List (Option ℚ)) :
    ∀ (ts : List Timestamp) (i : Nat),
      (processLoop cfg radiation temperature cloud_cover wind_speed i ts).timestamps.Sublist ts
  | [], _ => by simp [processLoop, get_empty_forecast_data]
  | t :: ts, i => by
    have ih := processLoop_timestamps_sublist cfg radiation temperature
      cloud_cover wind_speed ts (i + 1)
    simp only [processLoop]
    cases hr : radiation.getD i none with
    | none => exact ih.cons t
    | some r => exact ih.cons₂ t

lemma processLoop_timestamps_all_kept (cfg : ArrayConfig)
    (radiation temperature cloud_cover wind_speed : List (Option ℚ)) :
    ∀ (ts : List Timestamp) (i : Nat),
      (∀ j, i ≤ j → j < i + ts.length → radiation.getD j none ≠ none) →
      (processLoop cfg radiation temperature cloud_cover wind_speed i ts).timestamps = ts
  | [], _, _ => rfl
  | t :: ts, i, h => by
    have hkeep := h i le_rfl (by simp)
    simp only [processLoop]
    cases hr : radiation.getD i none with
    | none => exact absurd hr hkeep
    | some r =>
      have ih := processLoop_timestamps_all_kept cfg radiation temperature
        cloud_cover wind_speed ts (i + 1)
        (fun j h1 h2 => h j (by omega) (by simp at h2 ⊢; omega))
      simpa using ih

/-- Claim C3 (amended): when the provider's hourly timestamps are strictly
increasing at uniform 1-hour spacing, the processed timestamps are always
strictly increasing; the uniform 1-hour spacing is preserved provided every
hour's irradiance entry is present and non-null (null irradiance drops that
hour and widens the gap — see the counterexample). -/
theorem process_forecast_data_axis (cfg : ArrayConfig) (hd : HourlyData)
    (h : uniformHourly hd.time = true) :
    strictlyIncr (process_forecast_data cfg hd).timestamps = true ∧
    ((∀ j, j < hd.time.length → hd.shortwave_radiation.getD j none ≠ none) →
      uniformHourly (process_forecast_data cfg hd).timestamps = true) := by
  unfold process_forecast_data
  split
  · exact ⟨rfl, fun _ => rfl⟩
  · constructor
    · exact pairwise_strictlyIncr
        (List.Pairwise.sublist
          (processLoop_timestamps_sublist cfg hd.shortwave_radiation
            hd.temperature_2m hd.cloud_cover hd.wind_speed_10m hd.time 0)
          (uniformHourly_pairwise h))
    · intro hall
      rw [processLoop_timestamps_all_kept cfg hd.shortwave_radiation
        hd.temperature_2m hd.cloud_cover hd.wind_speed_10m hd.time 0
        (fun j _ h2 => hall j (by omega))]
      exact h

/-- Witness for the amended C3, on a concrete two-hour response with a null
cloud-cover entry: the axis survives intact. -/
theorem process_forecast_data_axis_witness :
    strictlyIncr (process_forecast_data
      { kwp := 5, declination := 30, azimuth := 180, damping := 0 }
      { time := [7, 8], shortwave_radiation := [some 800, some 900]
      , temperature_2m := [some 20, none], cloud_cover := [none, some 50]
      , wind_speed_10m := [] }).timestamps = true ∧
    uniformHourly (process_forecast_data
      { kwp := 5, declination := 30, azimuth := 180, damping := 0 }
      { time := [7, 8], shortwave_radiation := [some 800, some 900]
      , temperature_2m := [some 20, none], cloud_cover := [none, some 50]
      , wind_speed_10m := [] }).timestamps = true := by
  have h := process_forecast_data_axis
    { kwp := 5, declination := 30, azimuth := 180, damping := 0 }
    { time := [7, 8], shortwave_radiation := [some 800, some 900]
    , temperature_2m := [some 20, none], cloud_cover := [none, some 50]
    , wind_speed_10m := [] } (by decide)
  exact ⟨h.1, h.2 (by decide)⟩

/-- Concrete response refuting C3 as stated: hour 1's irradiance is null. -/
def cexHourly : HourlyData :=
  { time := [0, 1, 2]
  , shortwave_radiation := [some 0, none, some 0]
  , temperature_2m := [], cloud_cover := [], wind_speed_10m := [] }

/-- Claim C3 counterexample: the input hours 0,1,2 are strictly increasing at
uniform 1-hour spacing, but a null irradiance at hour 1 makes processing keep
only hours 0 and 2, so the output spacing is 2 hours: the claimed uniform
spacing fails for this null pattern. -/
theorem process_forecast_data_axis_cex :
    uniformHourly cexHourly.time = true ∧
    strictlyIncr cexHourly.time = true ∧
    (process_forecast_data
      { kwp := 5, declination := 30, azimuth := 180, damping := 0 }
      cexHourly).timestamps = [0, 2] ∧
    uniformHourly (process_forecast_data
      { kwp := 5, declination := 30, azimuth := 180, damping := 0 }
      cexHourly).timestamps = false := by
  decide

/-! ## Combining arrays (`_combine_array_data`) -/

/-- The combined series (`timestamps` / `power_forecast` / `energy_forecast`
keys of the dict built by `_combine_array_data`). -/
structure CombinedData where
  timestamps : List Timestamp
  power_forecast : List ℚ
  energy_forecast : List ℚ
  deriving DecidableEq

/-- The inner loop `for i, power in enumerate(power_values):
if i < len(combined): combined[i] += power`: elementwise addition clipped to
the accumulator's length; accumulator entries beyond the added list are
unchanged. -/
def addTrunc : List ℚ → List ℚ → List ℚ
  | [], _ => []
  | a :: acc, [] => a :: acc
  | a :: acc, p :: pv => (a + p) :: addTrunc acc pv

/-- Embedding of `SolarForecastCoordinator._combine_array_data` (coordinator.py lines
433-454) over the snapshot's values in iteration order: the axis comes from
the first series, sums start at `[0.0] * len(first.timestamps)`, and every
series (the first included) is added index-by-index.  An empty snapshot
yields the empty combined series (`_get_empty_forecast_data`). -/
def combineArrayData : List ProcessedData → CombinedData
  | [] => { timestamps := [], power_forecast := [], energy_forecast := [] }
  | first :: rest =>
    let n := first.timestamps.length
    { timestamps := first.timestamps
    , power_forecast := (first :: rest).foldl
        (fun acc s => addTrunc acc s.power_forecast) (List.replicate n 0.0)
    , energy_forecast := (first :: rest).foldl
        (fun acc s => addTrunc acc s.power_forecast) (List.replicate n 0.0) }

lemma addTrunc_length : ∀ (acc pv : List ℚ), (addTrunc acc pv).length = acc.length
  | [], _ => rfl
  | _ :: _, [] => rfl
  | _ :: acc, _ :: pv => by simp [addTrunc, addTrunc_length acc pv]

lemma addTrunc_getD :
    ∀ (acc pv : List ℚ) (i : Nat), i < acc.length →
      (addTrunc acc pv).getD i 0 = acc.getD i 0 + pv.getD i 0
  | [], _, i, h => by simp at h
  | a :: acc, [], i, _ => by
    cases i <;> simp [addTrunc, List.getD]
  | a :: acc, p :: pv, 0, _ => by simp [addTrunc, List.getD]
  | a :: acc, p :: pv, i + 1, h => by
    have := addTrunc_getD acc pv i (by simpa using h)
    simpa [addTrunc, List.getD] using this

lemma foldl_addTrunc_length :
    ∀ (l : List ProcessedData) (acc : List ℚ),
      (l.foldl (fun acc s => addTrunc acc s.power_forecast) acc).length = acc.length
  | [], _ => rfl
  | s :: l, acc => by
    simp only [List.foldl_cons]
    rw [foldl_addTrunc_length l _, addTrunc_length]

lemma foldl_addTrunc_getD :
    ∀ (l : List ProcessedData) (acc : List ℚ) (i : Nat), i < acc.length →
      (l.foldl (fun acc s => addTrunc acc s.power_forecast) acc).getD i 0 =
        acc.getD i 0 + (l.map (fun s => s.power_forecast.getD i 0)).sum
  | [], acc, i, _ => by simp
  | s :: l, acc, i, h => by
    simp only [List.foldl_cons, List.map_cons, List.sum_cons]
    rw [foldl_addTrunc_getD l _ i (by rw [addTrunc_length]; exact h),
      addTrunc_getD acc _ i h]
    ring

lemma replicate_getD (x : ℚ) : ∀ (n i : Nat), i < n → (List.replicate n x).getD i x = x
  | _ + 1, 0, _ => rfl
  | n + 1, i + 1, h => replicate_getD x n i (by omega)

lemma replicate_zero_getD : ∀ (n i : Nat), (List.replicate n (0.0 : ℚ)).getD i 0 = 0
  | 0, _ => by simp
  | _ + 1, 0 => by norm_num [List.replicate, List.getD]
  | n + 1, i + 1 => by
    simpa [List.replicate, List.getD] using replicate_zero_getD n i

/-- Claim C4: combining a non-empty snapshot takes its timestamp axis from the
first series in iteration order and sums power by index position, a series
shorter than the axis contributing zero beyond its own length; combining N
identical copies of a series yields N times its power at every index. -/
theorem combineArrayData_spec (series : List ProcessedData) (fs : ProcessedData)
    (hfirst : series.head? = some fs) :
    (combineArrayData series).timestamps = fs.timestamps ∧
    (combineArrayData series).power_forecast.length = fs.timestamps.length ∧
    (∀ i, i < fs.timestamps.length →
      (combineArrayData series).power_forecast.getD i 0 =
        (series.map (fun s => s.power_forecast.getD i 0)).sum) ∧
    (∀ (n : Nat) (s : ProcessedData), n ≠ 0 → ∀ i, i < s.timestamps.length →
      (combineArrayData (List.replicate n s)).power_forecast.getD i 0 =
        (n : ℚ) * s.power_forecast.getD i 0) := by
  have key : ∀ (f : ProcessedData) (rest : List ProcessedData),
      (combineArrayData (f :: rest)).timestamps = f.timestamps ∧
      (combineArrayData (f :: rest)).power_forecast.length = f.timestamps.length ∧
      (∀ i, i < f.timestamps.length →
        (combineArrayData (f :: rest)).power_forecast.getD i 0 =
          ((f :: rest).map (fun s => s.power_forecast.getD i 0)).sum) := by
    intro f rest
    refine ⟨rfl, ?_, ?_⟩
    · simp only [combineArrayData]
      rw [foldl_addTrunc_length, List.length_replicate]
    · intro i hi
      simp only [combineArrayData]
      rw [foldl_addTrunc_getD _ _ i (by simpa using hi), replicate_zero_getD]
      ring
  cases series with
  | nil => cases hfirst
  | cons f rest =>
    have hf : f = fs := by simpa using hfirst
    subst hf
    obtain ⟨k1, k2, k3⟩ := key f rest
    refine ⟨k1, k2, k3, ?_⟩
    intro n s hn i hi
    cases n with
    | zero => exact absurd rfl hn
    | succ m =>
      obtain ⟨_, _, k3'⟩ := key s (List.replicate m s)
      rw [List.replicate_succ, k3' i hi, ← List.replicate_succ, List.map_replicate,
        List.sum_replicate, nsmul_eq_mul]

/-- Witness for C4, on two copies of a one-hour series of power 2: the
combined power at index 0 is 4. -/
theorem combineArrayData_spec_witness :
    (combineArrayData [⟨[12], [2], [2], [25], [0], [0]⟩,
        ⟨[12], [2], [2], [25], [0], [0]⟩]).timestamps = [12] ∧
    (combineArrayData [⟨[12], [2], [2], [25], [0], [0]⟩,
        ⟨[12], [2], [2], [25], [0], [0]⟩]).power_forecast.getD 0 0 = 4 := by
  obtain ⟨h1, _, h3, _⟩ := combineArrayData_spec
    [⟨[12], [2], [2], [25], [0], [0]⟩, ⟨[12], [2], [2], [25], [0], [0]⟩]
    ⟨[12], [2], [2], [25], [0], [0]⟩ rfl
  refine ⟨h1, ?_⟩
  rw [h3 0 (by decide)]
  norm_num

/-! ## Daily energy (`_calculate_daily_energy`) -/

/-- The loop of `_calculate_daily_energy`, over `timestamps` from index `i`:
an entry contributes its power when it lies in the half-open window and its
index is inside the power list. -/
def dailyEnergyLoop (power_values : List ℚ) (start_time end_time : Timestamp) :
    Nat → List Timestamp → ℚ
  | _, [] => 0.0
  | i, t :: ts =>
    (if start_time ≤ t ∧ t < end_time ∧ i < power_values.length
      then power_values.getD i 0.0 else 0.0)
    + dailyEnergyLoop power_values start_time end_time (i + 1) ts

/-- Embedding of `SolarForecastCoordinator._calculate_daily_energy` (coordinator.py lines
340-356): total power over entries with `start_time ≤ timestamp < end_time`
(both sides are compared after replacing tzinfo with the same fixed zone,
i.e. in the plain order on instants), assuming 1-hour intervals. -/
def calculate_daily_energy (timestamps : List Timestamp) (power_values : List ℚ)
    (start_time end_time : Timestamp) : ℚ :=
  dailyEnergyLoop power_values start_time end_time 0 timestamps

lemma dailyEnergyLoop_eq (s e : Timestamp) :
    ∀ (ts : List Timestamp) (pv : List ℚ) (i : Nat), i + ts.length = pv.length →
      dailyEnergyLoop pv s e i ts =
        (((ts.zip (pv.drop i)).filter
          (fun q => decide (s ≤ q.1) && decide (q.1 < e))).map Prod.snd).sum
  | [], pv, i, _ => by norm_num [dailyEnergyLoop]
  | t :: ts, pv, i, h => by
    have hi : i < pv.length := by simp at h; omega
    have ih := dailyEnergyLoop_eq s e ts pv (i + 1) (by simp at h ⊢; omega)
    rw [dailyEnergyLoop, ih, List.drop_eq_getElem_cons hi]
    simp only [List.zip_cons_cons, List.filter_cons]
    by_cases hc : s ≤ t ∧ t < e
    · rw [if_pos ⟨hc.1, hc.2, hi⟩, List.getD_eq_getElem _ _ hi]
      have hb : (decide (s ≤ t) && decide (t < e)) = true := by
        simp [hc.1, hc.2]
      norm_num [hb]
    · rw [if_neg (by tauto)]
      have hb : (decide (s ≤ t) && decide (t < e)) = false := by
        rcases not_and_or.1 hc with h1 | h1 <;> simp [h1]
      norm_num [hb]

/-- Claim C5: for a series (parallel timestamp and power lists of equal
length) and any window, `_calculate_daily_energy` equals the sum of power
over exactly the entries with `start ≤ timestamp < end`; an entry whose
timestamp equals `end` contributes nothing. -/
theorem calculate_daily_energy_spec (timestamps : List Timestamp)
    (power_values : List ℚ) (start_time end_time : Timestamp)
    (hlen : timestamps.length = power_values.length) :
    calculate_daily_energy timestamps power_values start_time end_time =
      (((timestamps.zip power_values).filter
        (fun q => decide (start_time ≤ q.1) && decide (q.1 < end_time))).map
          Prod.snd).sum := by
  have := dailyEnergyLoop_eq start_time end_time timestamps power_values 0
    (by simpa using hlen)
  simpa [calculate_daily_energy] using this

/-- Witness for C5: a three-hour series with the last entry exactly at the
window's end; that entry is excluded. -/
theorem calculate_daily_energy_spec_witness :
    calculate_daily_energy [22, 23, 24] [1, 2, 4] 0 24 = 3 := by
  have h := calculate_daily_energy_spec [22, 23, 24] [1, 2, 4] 0 24 (by decide)
  rw [h]
  norm_num

/-- Claim C10: in every processed per-array series and every combined series,
`energy_forecast` is elementwise equal to `power_forecast`, and both lists
have the same length as `timestamps`. -/
theorem energy_forecast_eq_power_forecast :
    (∀ (cfg : ArrayConfig) (hd : HourlyData),
      (process_forecast_data cfg hd).energy_forecast =
          (process_forecast_data cfg hd).power_forecast ∧
        (process_forecast_data cfg hd).power_forecast.length =
          (process_forecast_data cfg hd).timestamps.length ∧
        (process_forecast_data cfg hd).energy_forecast.length =
          (process_forecast_data cfg hd).timestamps.length) ∧
    (∀ series : List ProcessedData,
      (combineArrayData series).energy_forecast =
          (combineArrayData series).power_forecast ∧
        (combineArrayData series).power_forecast.length =
          (combineArrayData series).timestamps.length ∧
        (combineArrayData series).energy_forecast.length =
          (combineArrayData series).timestamps.length) := by
  constructor
  · intro cfg hd
    have hmain : process_forecast_data cfg hd = spec_process_forecast_data cfg hd := by
      unfold process_forecast_data spec_process_forecast_data
      split
      · rfl
      · exact processLoop_eq_rows cfg hd.shortwave_radiation hd.temperature_2m
          hd.cloud_cover hd.wind_speed_10m hd.time 0
    rw [hmain]
    unfold spec_process_forecast_data
    split <;> simp [rowsToData, get_empty_forecast_data]
  · intro series
    cases series with
    | nil => exact ⟨rfl, rfl, rfl⟩
    | cons f rest =>
      refine ⟨rfl, ?_, ?_⟩ <;>
        · simp only [combineArrayData]
          rw [foldl_addTrunc_length, List.length_replicate]

/-! ## Refresh orchestration (`_async_update_data`) -/

/-- A published snapshot: array name ↦ processed series, in insertion order
(a Python dict with unique array names). -/
abbrev Snapshot := List (String × ProcessedData)

/-- The fallback read `if self.data and array_name in self.data:
all_forecasts[array_name] = self.data[array_name]`: `self.data` must be
truthy (neither None nor an empty dict) and contain the key. -/
def prevEntry (prev : Option Snapshot) (name : String) : Option ProcessedData :=
  match prev with
  | none => none
  | some p => if p.isEmpty then none else p.lookup name

/-- One iteration of the result loop of `_async_update_data`: a successful
fetch installs the fresh series; a failed fetch falls back to the previous
snapshot's entry when it exists, else adds nothing. -/
def rowResult (prev : Option Snapshot) (p : String × Option ProcessedData) :
    Option (String × ProcessedData) :=
  match p.2 with
  | some d => some (p.1, d)
  | none => (prevEntry prev p.1).map (fun d => (p.1, d))

/-- Embedding of `SolarForecastCoordinator._async_update_data` (coordinator.py lines
60-103) after the concurrent fan-in: `results` holds one entry per array, in
order (`none` models a fetch task that raised, mirroring
`asyncio.gather(..., return_exceptions=True)`).  If no array succeeded the
refresh raises UpdateFailed (`Except.error`); otherwise the mixed snapshot
is returned. -/
def async_update_data (names : List String) (results : List (Option ProcessedData))
    (prev : Option Snapshot) : Except String Snapshot :=
  let pairs := names.zip results
  let all_forecasts := pairs.foldl (fun acc p => acc ++ (rowResult prev p).toList) []
  let successful_updates := pairs.countP (fun p => p.2.isSome)
  if successful_updates = 0 then
    Except.error "Failed to fetch data for any solar arrays"
  else
    Except.ok all_forecasts

/-- Modelled from the spec: the host DataUpdateCoordinator (framework code,
not part of src/) publishes the returned snapshot as `self.data` on success
and retains the previous snapshot unmodified when `_async_update_data`
raises UpdateFailed. -/
def coordinatorData (names : List String) (results : List (Option ProcessedData))
    (prev : Option Snapshot) : Option Snapshot :=
  match async_update_data names results prev with
  | Except.ok snap => some snap
  | Except.error _ => prev

lemma foldl_rowResult_eq (prev : Option Snapshot) :
    ∀ (pairs : List (String × Option ProcessedData)) (acc : Snapshot),
      pairs.foldl (fun acc p => acc ++ (rowResult prev p).toList) acc =
        acc ++ pairs.filterMap (rowResult prev)
  | [], acc => by simp
  | p :: pairs, acc => by
    rw [List.foldl_cons, foldl_rowResult_eq prev pairs]
    cases hp : rowResult prev p <;> simp [List.filterMap_cons, hp]

lemma rowResult_keys (prev : Option Snapshot)
    (pairs : List (String × Option ProcessedData)) (q : String × ProcessedData)
    (hq : q ∈ pairs.filterMap (rowResult prev)) : q.1 ∈ pairs.map Prod.fst := by
  rcases List.mem_filterMap.1 hq with ⟨p, hp, hrow⟩
  have hq1 : q.1 = p.1 := by
    unfold rowResult at hrow
    cases h2 : p.2 with
    | some d =>
      rw [h2] at hrow
      cases hrow
      rfl
    | none =>
      rw [h2] at hrow
      rcases Option.map_eq_some'.1 hrow with ⟨d, _, hd⟩
      rw [← hd]
  rw [hq1]
  exact List.mem_map.2 ⟨p, hp, rfl⟩

lemma lookup_eq_none_of_not_mem (key : String) :
    ∀ (l : Snapshot), (∀ q ∈ l, q.1 ≠ key) → l.lookup key = none
  | [], _ => rfl
  | (k, v) :: l, h => by
    have hk : k ≠ key := h (k, v) (List.mem_cons_self _ _)
    have ih := lookup_eq_none_of_not_mem key l
      (fun q hq => h q (List.mem_cons_of_mem _ hq))
    simp [List.lookup, beq_false_of_ne (Ne.symm hk), ih]

lemma refresh_lookup (prev : Option Snapshot) :
    ∀ (names : List String) (results : List (Option ProcessedData)),
      names.Nodup → names.length = results.length →
      ∀ (i : Nat) (name : String) (res : Option ProcessedData),
        names.get? i = some name → results.get? i = some res →
        ((names.zip results).filterMap (rowResult prev)).lookup name =
          (match res with
            | some d => some d
            | none => prevEntry prev name)
  | [], _, _, _, _, _, _, hname, _ => by simp at hname
  | _ :: _, [], _, hlen, _, _, _, _, _ => by simp at hlen
  | n :: names, r :: results, hnd, hlen, 0, name, res, hname, hres => by
    obtain rfl : n = name := by simpa using hname
    obtain rfl : r = res := by simpa using hres
    simp only [List.zip_cons_cons, List.filterMap_cons]
    cases r with
    | some d => simp [rowResult, List.lookup]
    | none =>
      simp only [rowResult]
      cases hpe : prevEntry prev n with
      | some d => simp [List.lookup]
      | none =>
        simp only [Option.map_none']
        refine lookup_eq_none_of_not_mem n _ ?_
        intro q hq
        have hmem := rowResult_keys prev (names.zip results) q hq
        rw [List.map_fst_zip names results (by simp at hlen; omega)] at hmem
        intro hqn
        rw [hqn] at hmem
        exact (List.nodup_cons.1 hnd).1 hmem
  | n :: names, r :: results, hnd, hlen, i + 1, name, res, hname, hres => by
    have hname2 : names.get? i = some name := by simpa using hname
    have hres2 : results.get? i = some res := by simpa using hres
    have ih := refresh_lookup prev names results (List.nodup_cons.1 hnd).2
      (by simpa using hlen) i name res hname2 hres2
    have hne : n ≠ name := by
      intro hcontra
      have hmem : name ∈ names := List.get?_mem hname2
      exact (List.nodup_cons.1 hnd).1 (hcontra ▸ hmem)
    simp only [List.zip_cons_cons, List.filterMap_cons]
    cases r with
    | some d =>
      simpa [rowResult, List.lookup, beq_false_of_ne (Ne.symm hne)] using ih
    | none =>
      simp only [rowResult]
      cases hpe : prevEntry prev n with
      | some d =>
        simpa [List.lookup, beq_false_of_ne (Ne.symm hne)] using ih
      | none => simpa using ih

/-- Claim C1: when at least one but not all per-array fetches succeed, the
refresh returns a snapshot (no exception) in which every successful array is
mapped to its fresh series and every failed array carries exactly its entry
from the previous snapshot when one exists and is absent otherwise; the
snapshot holds no keys beyond the configured array names. -/
theorem async_update_data_partial (names : List String)
    (results : List (Option ProcessedData)) (prev : Option Snapshot)
    (hnd : names.Nodup) (hlen : names.length = results.length)
    (hsome : 0 < (names.zip results).countP (fun p => p.2.isSome))
    (hnotall : (names.zip results).countP (fun p => p.2.isSome) < names.length) :
    ∃ snap, async_update_data names results prev = Except.ok snap ∧
      (∀ (i : Nat) (name : String) (res : Option ProcessedData),
        names.get? i = some name → results.get? i = some res →
        snap.lookup name =
          (match res with
            | some d => some d
            | none => prevEntry prev name)) ∧
      (∀ q ∈ snap, q.1 ∈ names) := by
  refine ⟨(names.zip results).filterMap (rowResult prev), ?_, ?_, ?_⟩
  · simp only [async_update_data]
    rw [foldl_rowResult_eq, List.nil_append, if_neg (by omega)]
  · intro i name res hname hres
    exact refresh_lookup prev names results hnd hlen i name res hname hres
  · intro q hq
    have := rowResult_keys prev (names.zip results) q hq
    rwa [List.map_fst_zip names results (le_of_eq hlen)] at this

/-- Concrete fresh series used in the refresh witnesses. -/
def pdFreshA : ProcessedData := ⟨[12], [4], [4], [25], [0], [0]⟩

/-- Concrete stale series used in the refresh witnesses. -/
def pdStaleB : ProcessedData := ⟨[11], [3], [3], [25], [0], [0]⟩

/-- Witness for C1: arrays A, B, C with only A's fetch succeeding and a
previous snapshot holding only B: A is fresh, B is carried over verbatim,
C is absent, and the refresh succeeds. -/
theorem async_update_data_partial_witness :
    ∃ snap,
      async_update_data ["A", "B", "C"] [some pdFreshA, none, none]
          (some [("B", pdStaleB)]) = Except.ok snap ∧
        snap.lookup "A" = some pdFreshA ∧
        snap.lookup "B" = some pdStaleB ∧
        snap.lookup "C" = none := by
  obtain ⟨snap, hok, hlook, _⟩ := async_update_data_partial ["A", "B", "C"]
    [some pdFreshA, none, none] (some [("B", pdStaleB)]) (by decide) rfl
    (by decide) (by decide)
  have hA := hlook 0 "A" (some pdFreshA) rfl rfl
  have hB := hlook 1 "B" none rfl rfl
  have hC := hlook 2 "C" none rfl rfl
  exact ⟨snap, hok, hA, hB.trans (by decide), hC.trans (by decide)⟩

/-- Claim C2: when every per-array fetch fails, the refresh raises
UpdateFailed instead of returning a snapshot, and the previously published
snapshot (retained by the host coordinator) is left completely unchanged. -/
theorem async_update_data_all_failed (names : List String)
    (results : List (Option ProcessedData)) (prev : Option Snapshot)
    (hall : ∀ r ∈ results, r = none) :
    async_update_data names results prev =
        Except.error "Failed to fetch data for any solar arrays" ∧
      coordinatorData names results prev = prev := by
  have hcount : (names.zip results).countP (fun p => p.2.isSome) = 0 := by
    rw [List.countP_eq_zero]
    rintro ⟨a, b⟩ hp
    have hb : b ∈ results := (List.of_mem_zip hp).2
    rw [hall b hb]
    simp
  have herr : async_update_data names results prev =
      Except.error "Failed to fetch data for any solar arrays" := by
    simp only [async_update_data]
    rw [if_pos hcount]
  refine ⟨herr, ?_⟩
  simp only [coordinatorData, herr]

/-- Witness for C2: two arrays both failing, with a previous snapshot holding
array B: the refresh errors and the retained snapshot is the old one. -/
theorem async_update_data_all_failed_witness :
    async_update_data ["A", "B"] [none, none] (some [("B", pdStaleB)]) =
        Except.error "Failed to fetch data for any solar arrays" ∧
      coordinatorData ["A", "B"] [none, none] (some [("B", pdStaleB)]) =
        some [("B", pdStaleB)] :=
  async_update_data_all_failed ["A", "B"] [none, none] (some [("B", pdStaleB)])
    (by decide)

end SolarForecast
